import Mathlib

/-!
# Ablisense — verification of the application controller and service layer

Shallow embedding of the Ablisense front-end (src/App.tsx, src/types.ts,
src/services/geminiService.ts, src/components/CameraScanner.tsx).

The application is single-threaded and event-driven; every handler is
embedded as a pure state-transformation on an explicit `AppState`.  The
outcome of an external generative-service call is passed in as a value of
type `Except Unit (Option String)`: `.error ()` models the underlying SDK
call rejecting, `.ok t` models it resolving with `response.text = t`
(`none` models a missing/undefined text field).  The camera adapter is
embedded as a small trace machine over `CameraState`.
-/

namespace Ablisense

/-- src/types.ts: `enum Tone` — five fixed writing styles. -/
inductive Tone where
  | CONVERSATIONAL
  | PROFESSIONAL
  | ACADEMIC
  | CREATIVE
  | CONCISE
deriving DecidableEq, Repr

/-- The string value carried by each `Tone` enum member in src/types.ts. -/
def Tone.toStr : Tone → String
  | .CONVERSATIONAL => "Conversational"
  | .PROFESSIONAL => "Professional"
  | .ACADEMIC => "Academic"
  | .CREATIVE => "Creative"
  | .CONCISE => "Concise"

/-- src/types.ts: `interface TransformationResult`. -/
structure TransformationResult where
  originalText : String
  humanizedText : String
  timestamp : Nat
  language : Option String
deriving DecidableEq, Repr

/-- src/types.ts: `interface Language`. -/
structure Language where
  code : String
  name : String
  flag : String
deriving DecidableEq, Repr, Inhabited

/-- src/types.ts: `SUPPORTED_LANGUAGES` — the fixed catalog of 12 entries. -/
def SUPPORTED_LANGUAGES : List Language :=
  [ { code := "en", name := "English", flag := "🇺🇸" },
    { code := "en-pk", name := "English (Pakistan)", flag := "🇵🇰" },
    { code := "ur", name := "Urdu", flag := "🇵🇰" },
    { code := "sd", name := "Sindhi", flag := "🇵🇰" },
    { code := "pa", name := "Punjabi", flag := "🇵🇰" },
    { code := "ps", name := "Pashto", flag := "🇵🇰" },
    { code := "bal", name := "Balochi", flag := "🇵🇰" },
    { code := "es", name := "Spanish", flag := "🇪🇸" },
    { code := "fr", name := "French", flag := "🇫🇷" },
    { code := "de", name := "German", flag := "🇩🇪" },
    { code := "zh", name := "Chinese", flag := "🇨🇳" },
    { code := "ar", name := "Arabic", flag := "🇸🇦" } ]

/-- JavaScript `String.prototype.trim()`: strips leading and trailing
whitespace (computable embedding over the character list). -/
def jsTrim (s : String) : String :=
  ⟨((s.data.dropWhile Char.isWhitespace).reverse.dropWhile Char.isWhitespace).reverse⟩

/-- JavaScript `a || b` on an optional string `a`: the fallback `b` is used
when `a` is absent (`undefined`) or the empty string (falsy). -/
def jsOr (a : Option String) (b : String) : String :=
  match a with
  | some s => if s = "" then b else s
  | none => b

/-! ## src/services/geminiService.ts -/

/-- `humanizeText`: `const isTranslationNeeded =
targetLanguage !== 'English' && targetLanguage !== 'English (Pakistan)'`. -/
def isTranslationNeeded (targetLanguage : String) : Bool :=
  targetLanguage ≠ "English" && targetLanguage ≠ "English (Pakistan)"

/-- The translation branch of rule 1 of the system instruction. -/
def translationRule (targetLanguage : String) : String :=
  s!"Translation: Convert the text to {targetLanguage} while keeping it natural."

/-- The keep-language branch of rule 1 of the system instruction. -/
def keepLanguageRule (targetLanguage : String) : String :=
  s!"Language: Keep the output in {targetLanguage}."

/-- Rule 1 of the system instruction built by `humanizeText`. -/
def rule1 (targetLanguage : String) : String :=
  if isTranslationNeeded targetLanguage then translationRule targetLanguage
  else keepLanguageRule targetLanguage

/-- The full `systemInstruction` template string built by `humanizeText`,
with rule 1 chosen by `isTranslationNeeded`. -/
def systemInstruction (tone : Tone) (targetLanguage : String) : String :=
  let toneName := tone.toStr
  "\n    You are an expert editor and humanizer. Your sole job is to rewrite AI-generated text to sound 100% human, natural, and undetectable by AI detectors.\n    \n    CRITICAL RULES:\n    1. " ++ rule1 targetLanguage ++
  s!"\n    2. Tone: Use a {toneName} style.\n    3. Human Nuance: Incorporate natural flow, varied sentence lengths, and appropriate idioms.\n    4. Authenticity: Avoid \"AI-isms\" like \"In conclusion,\" \"Moreover,\" or overly predictable structures.\n    5. Maintain Meaning: Do not change the facts or the core message.\n    \n    Return ONLY the humanized text. No conversational filler or explanations.\n  "

/-- The `contents` prompt sent by `humanizeText`. -/
def humanizeContents (text : String) (tone : Tone) (targetLanguage : String) : String :=
  let toneName := tone.toStr
  s!"Humanize this text in {targetLanguage} with a {toneName} tone: \n\n{text}"

/-- The fallback apology `humanizeText` returns when the service resolves
with an empty/undefined text. -/
def humanizeApology : String := "I couldn't process that text. Please try again."

/-- The message of the error `humanizeText` throws when the underlying call
rejects. -/
def humanizeFailMsg : String :=
  "API call failed. Please check your connection or try a shorter text."

/-- `humanizeText` result behaviour: returns `response.text || apology` on a
resolved call, throws `humanizeFailMsg` on a rejected call.  `svc` is the
outcome of `ai.models.generateContent`. -/
def humanizeText (svc : Except Unit (Option String)) : Except String String :=
  match svc with
  | .ok t => .ok (jsOr t humanizeApology)
  | .error _ => .error humanizeFailMsg

/-- `fixSpellingAndGrammar`: returns `response.text?.trim() || text` on a
resolved call, throws "Grammar fix failed." on a rejected call. -/
def fixSpellingAndGrammar (text : String) (svc : Except Unit (Option String)) :
    Except String String :=
  match svc with
  | .ok t => .ok (jsOr (t.map jsTrim) text)
  | .error _ => .error "Grammar fix failed."

/-- `extractTextFromImage` payload selection, on the character list of the
argument: `base64Data.includes(',') ? base64Data.split(',')[1] : base64Data`
(the JS `split(',')[1]` is the segment after the first comma and before the
next comma or the end). -/
def dataUrlPayload (base64Data : List Char) : List Char :=
  if base64Data.contains ',' then
    ((base64Data.dropWhile (fun c => c ≠ ',')).drop 1).takeWhile (fun c => c ≠ ',')
  else base64Data

/-- `extractTextFromImage` result behaviour: returns
`response.text?.trim() || ""` on a resolved call, throws
"Could not scan text from camera." on a rejected call. -/
def extractTextFromImage (svc : Except Unit (Option String)) : Except String String :=
  match svc with
  | .ok t => .ok (jsOr (t.map jsTrim) "")
  | .error _ => .error "Could not scan text from camera."

/-! ## src/App.tsx — application controller state -/

/-- The `useState` fields of the `App` component. -/
structure AppState where
  inputText : String
  outputText : String
  selectedTone : Tone
  selectedLang : Language
  isLoading : Bool
  isSpellingLoading : Bool
  isScanning : Bool
  isListening : Bool
  showInfo : Bool
  error : Option String
  history : List TransformationResult
deriving DecidableEq, Repr

/-- The initial values passed to `useState` in `App`. -/
def initState : AppState :=
  { inputText := ""
    outputText := ""
    selectedTone := Tone.CONVERSATIONAL
    selectedLang := SUPPORTED_LANGUAGES[0]!
    isLoading := false
    isSpellingLoading := false
    isScanning := false
    isListening := false
    showInfo := false
    error := none
    history := [] }

/-- `isRTL` in `App`: whether the selected language renders right-to-left. -/
def isRTL (selectedLang : Language) : Bool :=
  ["ur", "sd", "ar", "ps", "bal"].contains selectedLang.code

/-- The `dir` attribute of the output card:
`dir={isRTL ? 'rtl' : 'ltr'}`. -/
def outputDir (selectedLang : Language) : String :=
  if isRTL selectedLang then "rtl" else "ltr"

/-- `handleTransform`: validation guard, then the humanize call; success
replaces the output and prepends a history entry trimmed to 5; failure sets
the thrown message; the `finally` clears the loading flag on both settled
paths.  `svc` is the outcome of the underlying service call and `now` the
value of `Date.now()` at the success update. -/
def handleTransform (s : AppState) (svc : Except Unit (Option String)) (now : Nat) :
    AppState :=
  if jsTrim s.inputText = "" then
    { s with error := some "Please enter some text first." }
  else
    match humanizeText svc with
    | .ok result =>
        { s with
            isLoading := false
            error := none
            outputText := result
            history :=
              ({ originalText := s.inputText
                 humanizedText := result
                 timestamp := now
                 language := some s.selectedLang.name } :: s.history).take 5 }
    | .error msg => { s with isLoading := false, error := some msg }

/-- `handleFixSpelling`: silent return on blank input; success replaces the
input text; failure sets "Grammar fix failed."; the `finally` clears the
spelling loading flag on both settled paths. -/
def handleFixSpelling (s : AppState) (svc : Except Unit (Option String)) : AppState :=
  if jsTrim s.inputText = "" then s
  else
    match fixSpellingAndGrammar s.inputText svc with
    | .ok fixed => { s with isSpellingLoading := false, inputText := fixed }
    | .error _ =>
        { s with isSpellingLoading := false, error := some "Grammar fix failed." }

/-- `clearAll`: guarded by a `confirm` dialog; when confirmed, resets input,
output, history and error. -/
def clearAll (s : AppState) (confirmed : Bool) : AppState :=
  if confirmed then
    { s with inputText := "", outputText := "", history := [], error := none }
  else s

/-- The "Clear History" button: `setHistory([])`. -/
def clearHistory (s : AppState) : AppState :=
  { s with history := [] }

/-- The speech-recognition `onresult` callback: appends the transcript to the
input (space-joined when the previous input is truthy, i.e. non-empty) and
stops listening. -/
def onresult (s : AppState) (transcript : String) : AppState :=
  { s with
      inputText := if s.inputText = "" then transcript
                   else s.inputText ++ " " ++ transcript
      isListening := false }

/-- The speech-recognition `onerror` and `onend` callbacks:
`setIsListening(false)`. -/
def onSpeechErrorOrEnd (s : AppState) : AppState :=
  { s with isListening := false }

/-- `toggleVoiceInput`: error when the capability is missing; stop when
listening (no direct state change; `onend` fires separately); otherwise
clear the error and start listening. -/
def toggleVoiceInput (s : AppState) (supported : Bool) : AppState :=
  if !supported then
    { s with error := some "Voice input not supported on this device." }
  else if s.isListening then s
  else { s with error := none, isListening := true }

/-- The `onCapture` handler of the scanner in `App`: closes the scanner,
sets the shared loading flag, extracts text; a non-empty result is appended
to the input (blank-line-joined); failure sets the thrown message; the
`finally` clears the loading flag. -/
def onCapture (s : AppState) (svc : Except Unit (Option String)) : AppState :=
  let s1 := { s with isScanning := false }
  match extractTextFromImage svc with
  | .ok text =>
      if text ≠ "" then
        { s1 with
            isLoading := false
            inputText := if s1.inputText = "" then text
                         else s1.inputText ++ "\n\n" ++ text }
      else { s1 with isLoading := false }
  | .error msg => { s1 with isLoading := false, error := some msg }

/-- Clicking a history card: restores that entry's texts. -/
def historyClick (s : AppState) (i : Nat) : AppState :=
  match s.history[i]? with
  | some item =>
      { s with inputText := item.originalText, outputText := item.humanizedText }
  | none => s

/-! ## Event-driven execution

One `Event` per user-visible handler of `App`; `step` dispatches to the
handler embeddings above.  Service-call events carry the outcome of the
external call that settles during their handler. -/

inductive Event where
  | transform (svc : Except Unit (Option String)) (now : Nat)
  | fixSpelling (svc : Except Unit (Option String))
  | capture (svc : Except Unit (Option String))
  | speechResult (transcript : String)
  | speechErrorOrEnd
  | toggleVoice (supported : Bool)
  | clearAllEv (confirmed : Bool)
  | clearHistoryEv
  | selectTone (t : Tone)
  | selectLang (l : Language)
  | editInput (text : String)
  | openScanner
  | closeScanner
  | setShowInfoEv (b : Bool)
  | clickHistory (i : Nat)

/-- Dispatch of each event to its `App` handler. -/
def step (s : AppState) : Event → AppState
  | .transform svc now => handleTransform s svc now
  | .fixSpelling svc => handleFixSpelling s svc
  | .capture svc => onCapture s svc
  | .speechResult transcript => onresult s transcript
  | .speechErrorOrEnd => onSpeechErrorOrEnd s
  | .toggleVoice supported => toggleVoiceInput s supported
  | .clearAllEv confirmed => clearAll s confirmed
  | .clearHistoryEv => clearHistory s
  | .selectTone t => { s with selectedTone := t }
  | .selectLang l => { s with selectedLang := l }
  | .editInput text => { s with inputText := text }
  | .openScanner => { s with isScanning := true }
  | .closeScanner => { s with isScanning := false }
  | .setShowInfoEv b => { s with showInfo := b }
  | .clickHistory i => historyClick s i

/-- States reachable from the initial state by any sequence of events. -/
inductive Reachable : AppState → Prop where
  | init : Reachable initState
  | step : ∀ {s : AppState} (e : Event), Reachable s → Reachable (step s e)

/-! ## src/components/CameraScanner.tsx — camera adapter trace machine

The adapter mounts, issues a `getUserMedia` request, and its effect cleanup
(run at unmount, i.e. on manual close or capture) stops the stream's tracks
only when the video element's `srcObject` was set.  The request resolution
and the unmount are separate events on the single event loop, so the
resolution may land after the unmount. -/

/-- Lifecycle of the media stream requested by `setupCamera`. -/
inductive StreamStatus where
  | notAcquired
  | active
  | stopped
deriving DecidableEq, Repr

/-- The adapter's observable state: whether the component is mounted,
whether the `getUserMedia` request is outstanding, the stream status,
whether `videoRef.current.srcObject` was set, and `hasPermission`. -/
structure CameraState where
  mounted : Bool
  pending : Bool
  stream : StreamStatus
  attached : Bool
  hasPermission : Option Bool
deriving DecidableEq, Repr

/-- State right after mount: `setupCamera` has issued the request. -/
def camInit : CameraState :=
  { mounted := true
    pending := true
    stream := StreamStatus.notAcquired
    attached := false
    hasPermission := none }

inductive CamEvent where
  /-- `getUserMedia` resolves with a stream. -/
  | resolveGranted
  /-- `getUserMedia` rejects (permission denied). -/
  | resolveDenied
  /-- The adapter unmounts (manual close or capture); the effect cleanup
  runs: tracks are stopped iff a `srcObject` is attached. -/
  | close

/-- Transition function of the adapter, from the source: on a granted
resolution the stream exists, and `srcObject`/`hasPermission` are set only
when `videoRef.current` is non-null (the component is mounted); the unmount
cleanup stops the tracks only of an attached stream. -/
def camStep (c : CameraState) : CamEvent → CameraState
  | .resolveGranted =>
      if c.mounted then
        { c with
            pending := false
            stream := StreamStatus.active
            attached := true
            hasPermission := some true }
      else { c with pending := false, stream := StreamStatus.active }
  | .resolveDenied => { c with pending := false, hasPermission := some false }
  | .close =>
      if c.attached then
        { c with mounted := false, stream := StreamStatus.stopped }
      else { c with mounted := false }

/-- Run the adapter over a trace of events. -/
def camRun (c : CameraState) : List CamEvent → CameraState
  | [] => c
  | e :: es => camRun (camStep c e) es

/-! ## Helper lemmas -/

/-- The two branches of rule 1 are different strings for every target
language (their lengths differ by a constant). -/
lemma translationRule_ne_keepLanguageRule (tl : String) :
    translationRule tl ≠ keepLanguageRule tl := by
  intro h
  have h2 := congrArg String.length h
  have e1 : translationRule tl =
      "Translation: Convert the text to " ++ tl ++ " while keeping it natural." := rfl
  have e2 : keepLanguageRule tl = "Language: Keep the output in " ++ tl ++ "." := rfl
  rw [e1, e2] at h2
  simp only [String.length_append] at h2
  have l1 : "Translation: Convert the text to ".length = 33 := by decide
  have l2 : " while keeping it natural.".length = 26 := by decide
  have l3 : "Language: Keep the output in ".length = 29 := by decide
  have l4 : ".".length = 1 := by decide
  omega

/-- Dropping while a predicate holds on the whole first block skips it. -/
lemma dropWhile_append_of_forall {α : Type} (p : α → Bool) (l rest : List α)
    (h : ∀ a ∈ l, p a = true) : (l ++ rest).dropWhile p = rest.dropWhile p := by
  induction l with
  | nil => rfl
  | cons a l ih =>
      simp only [List.cons_append, List.dropWhile_cons]
      rw [if_pos (h a (List.mem_cons_self a l))]
      exact ih (fun b hb => h b (List.mem_cons_of_mem a hb))

/-- A settled transform keeps the history within 5 entries. -/
lemma handleTransform_history_le (s : AppState) (svc : Except Unit (Option String))
    (now : Nat) (h : s.history.length ≤ 5) :
    (handleTransform s svc now).history.length ≤ 5 := by
  unfold handleTransform
  split
  · exact h
  · split
    · simp [List.length_take]
    · exact h

/-- A settled grammar fix never touches the history. -/
lemma handleFixSpelling_history (s : AppState) (svc : Except Unit (Option String)) :
    (handleFixSpelling s svc).history = s.history := by
  unfold handleFixSpelling
  split
  · rfl
  · split <;> rfl

/-- A settled capture never touches the history. -/
lemma onCapture_history (s : AppState) (svc : Except Unit (Option String)) :
    (onCapture s svc).history = s.history := by
  unfold onCapture
  split
  · split <;> rfl
  · rfl

/-- Toggling voice input never touches the history. -/
lemma toggleVoiceInput_history (s : AppState) (b : Bool) :
    (toggleVoiceInput s b).history = s.history := by
  unfold toggleVoiceInput
  split
  · rfl
  · split <;> rfl

/-- Clicking a history card never touches the history itself. -/
lemma historyClick_history (s : AppState) (i : Nat) :
    (historyClick s i).history = s.history := by
  unfold historyClick
  split <;> rfl

/-- No handler grows the history beyond 5 entries. -/
lemma step_history_length (s : AppState) (e : Event) (h : s.history.length ≤ 5) :
    (step s e).history.length ≤ 5 := by
  cases e with
  | transform svc now => exact handleTransform_history_le s svc now h
  | fixSpelling svc => exact (handleFixSpelling_history s svc) ▸ h
  | capture svc => exact (onCapture_history s svc) ▸ h
  | speechResult t => exact h
  | speechErrorOrEnd => exact h
  | toggleVoice b => exact (toggleVoiceInput_history s b) ▸ h
  | clearAllEv c =>
      show (clearAll s c).history.length ≤ 5
      unfold clearAll
      split
      · simp
      · exact h
  | clearHistoryEv => simp [step, clearHistory]
  | selectTone t => exact h
  | selectLang l => exact h
  | editInput t => exact h
  | openScanner => exact h
  | closeScanner => exact h
  | setShowInfoEv b => exact h
  | clickHistory i => exact (historyClick_history s i) ▸ h

/-- The happy path does release the stream: resolution while mounted, then
close, leaves the tracks stopped. -/
lemma camera_happy_path_releases :
    (camRun camInit [CamEvent.resolveGranted, CamEvent.close]).stream =
      StreamStatus.stopped := by decide

/-- On permission denial no stream is ever acquired. -/
lemma camera_denied_acquires_nothing :
    (camRun camInit [CamEvent.resolveDenied, CamEvent.close]).stream =
      StreamStatus.notAcquired := by decide

/-! ## Claims -/

/-- C1: for every non-blank input text (and any tone, language and service
outcome), `handleTransform` leaves the transform loading flag cleared after
it settles, both when the humanize call succeeds and when it throws. -/
theorem transform_always_clears_loading (s : AppState)
    (svc : Except Unit (Option String)) (now : Nat) (h : jsTrim s.inputText ≠ "") :
    (handleTransform s svc now).isLoading = false := by
  unfold handleTransform
  rw [if_neg h]
  cases svc with
  | ok t => rfl
  | error u => rfl

/-- Witness for C1 at a concrete non-blank input and a throwing call. -/
theorem transform_always_clears_loading_witness :
    jsTrim (AppState.inputText { initState with inputText := "hi" }) ≠ "" ∧
    (handleTransform { initState with inputText := "hi" } (Except.error ()) 0).isLoading
      = false :=
  ⟨by decide, transform_always_clears_loading _ (Except.error ()) 0 (by decide)⟩

/-- C2: every reachable state has at most 5 history entries; a successful
transform prepends the new entry (with the language selected at submission)
and trims to 5, evicting the oldest when there were already 5; and
selecting a language later never touches the stored entries. -/
theorem history_invariant_and_prepend :
    (∀ s : AppState, Reachable s → s.history.length ≤ 5) ∧
    (∀ (s : AppState) (t : Option String) (now : Nat), jsTrim s.inputText ≠ "" →
      (step s (Event.transform (Except.ok t) now)).history =
        ({ originalText := s.inputText
           humanizedText := jsOr t humanizeApology
           timestamp := now
           language := some s.selectedLang.name } :: s.history).take 5) ∧
    (∀ (s : AppState) (t : Option String) (now : Nat), jsTrim s.inputText ≠ "" →
      s.history.length = 5 →
      (step s (Event.transform (Except.ok t) now)).history =
        { originalText := s.inputText
          humanizedText := jsOr t humanizeApology
          timestamp := now
          language := some s.selectedLang.name } :: s.history.take 4) ∧
    (∀ (s : AppState) (l : Language), (step s (Event.selectLang l)).history = s.history) := by
  refine ⟨?_, ?_, ?_, ?_⟩
  · intro s hs
    induction hs with
    | init => decide
    | step e hr ih => exact step_history_length _ e ih
  · intro s t now h
    show (handleTransform s (Except.ok t) now).history = _
    unfold handleTransform
    rw [if_neg h]
    rfl
  · intro s t now h h5
    show (handleTransform s (Except.ok t) now).history = _
    unfold handleTransform
    rw [if_neg h]
    rfl
  · intro s l
    rfl

/-- Witness for C2: the invariant at the initial state, and a concrete
successful transform prepending an entry carrying the submitted language. -/
theorem history_invariant_and_prepend_witness :
    initState.history.length ≤ 5 ∧
    jsTrim (AppState.inputText { initState with inputText := "hi" }) ≠ "" ∧
    (step { initState with inputText := "hi" }
        (Event.transform (Except.ok (some "out")) 7)).history =
      [{ originalText := "hi", humanizedText := "out", timestamp := 7,
         language := some "English" }] := by
  refine ⟨history_invariant_and_prepend.1 initState Reachable.init, by decide, ?_⟩
  rw [history_invariant_and_prepend.2.1 { initState with inputText := "hi" }
    (some "out") 7 (by decide)]
  decide

/-- C3: when the humanize call fails, `handleTransform` sets the error to
the thrown message and clears the loading flag, leaving every other field —
output text included — exactly as before the call. -/
theorem transform_failure_preserves_output (s : AppState) (now : Nat)
    (h : jsTrim s.inputText ≠ "") :
    handleTransform s (Except.error ()) now =
      { s with isLoading := false, error := some humanizeFailMsg } := by
  unfold handleTransform
  rw [if_neg h]
  rfl

/-- Witness for C3 at a concrete state with prior output. -/
theorem transform_failure_preserves_output_witness :
    jsTrim (AppState.inputText { initState with inputText := "hi", outputText := "old" }) ≠ "" ∧
    handleTransform { initState with inputText := "hi", outputText := "old" }
        (Except.error ()) 3 =
      { initState with
          inputText := "hi"
          outputText := "old"
          error := some humanizeFailMsg } :=
  ⟨by decide,
   transform_failure_preserves_output
     { initState with inputText := "hi", outputText := "old" } 3 (by decide)⟩

/-- C4: the system instruction's rule 1 is the translation instruction
exactly for target languages other than "English" and "English (Pakistan)";
for those two it is the keep-language instruction. -/
theorem humanize_translation_branch (tl : String) :
    (rule1 tl = translationRule tl ↔ (tl ≠ "English" ∧ tl ≠ "English (Pakistan)")) ∧
    ((tl = "English" ∨ tl = "English (Pakistan)") → rule1 tl = keepLanguageRule tl) := by
  have hiff : isTranslationNeeded tl = true ↔
      (tl ≠ "English" ∧ tl ≠ "English (Pakistan)") := by
    simp [isTranslationNeeded]
  constructor
  · constructor
    · intro h
      cases hb : isTranslationNeeded tl with
      | true => exact hiff.mp hb
      | false =>
          exfalso
          have hk : rule1 tl = keepLanguageRule tl := by simp [rule1, hb]
          exact translationRule_ne_keepLanguageRule tl (h.symm.trans hk)
    · intro h
      simp [rule1, hiff.mpr h]
  · intro h
    have hb : isTranslationNeeded tl = false := by
      rcases h with rfl | rfl <;> rfl
    simp [rule1, hb]

/-- Witness for C4 on "Urdu" (translation) and "English" (keep-language). -/
theorem humanize_translation_branch_witness :
    rule1 "Urdu" = translationRule "Urdu" ∧
    rule1 "English" = keepLanguageRule "English" :=
  ⟨(humanize_translation_branch "Urdu").1.mpr (by decide),
   (humanize_translation_branch "English").2 (Or.inl rfl)⟩

/-- C5 (code bug): closing the scanner while the `getUserMedia` request is
still pending, after which the request resolves with a granted stream,
leaves the adapter closed with the acquired stream still active — no exit
path ever stops its tracks, because the effect cleanup ran before any
`srcObject` was attached and the late resolution finds the component
unmounted. -/
theorem camera_close_while_pending_leaks_stream :
    (camRun camInit [CamEvent.close, CamEvent.resolveGranted]).mounted = false ∧
    (camRun camInit [CamEvent.close, CamEvent.resolveGranted]).stream =
      StreamStatus.active ∧
    (camRun camInit [CamEvent.close, CamEvent.resolveGranted]).attached = false := by
  decide

/-- C6: a speech transcript is appended to a non-empty input with a single
space, replaces an empty input, and listening stops. -/
theorem speech_transcript_appended (s : AppState) (t : String) :
    (s.inputText ≠ "" →
      (step s (Event.speechResult t)).inputText = s.inputText ++ " " ++ t) ∧
    (s.inputText = "" → (step s (Event.speechResult t)).inputText = t) ∧
    (step s (Event.speechResult t)).isListening = false := by
  refine ⟨?_, ?_, rfl⟩
  · intro h
    simp only [step, onresult]
    rw [if_neg h]
  · intro h
    simp only [step, onresult]
    rw [if_pos h]

/-- Witness for C6: transcript "hello world" over input "Draft:". -/
theorem speech_transcript_appended_witness :
    AppState.inputText { initState with inputText := "Draft:" } ≠ "" ∧
    (step { initState with inputText := "Draft:" }
        (Event.speechResult "hello world")).inputText = "Draft: hello world" :=
  ⟨by decide,
   (speech_transcript_appended { initState with inputText := "Draft:" }
      "hello world").1 (by decide)⟩

/-- C7: `extractTextFromImage` forwards only the base64 payload: a data-URL
prefix up to the comma is stripped, and a bare payload is forwarded
unchanged. -/
theorem extract_forwards_payload (pre payload : List Char)
    (hpre : ∀ c ∈ pre, c ≠ ',') (hpay : ∀ c ∈ payload, c ≠ ',') :
    dataUrlPayload (pre ++ ',' :: payload) = payload ∧
    dataUrlPayload payload = payload := by
  constructor
  · unfold dataUrlPayload
    rw [if_pos (List.elem_eq_true_of_mem (by simp))]
    rw [dropWhile_append_of_forall _ pre (',' :: payload)
      (fun c hc => by simpa using hpre c hc)]
    simp only [List.dropWhile_cons]
    rw [if_neg (by simp)]
    simp only [List.drop_succ_cons, List.drop_zero]
    exact List.takeWhile_eq_self_iff.mpr (fun c hc => by simpa using hpay c hc)
  · unfold dataUrlPayload
    rw [if_neg ?hnc]
    case hnc =>
      intro hc
      exact hpay ',' (List.mem_of_elem_eq_true hc) rfl

/-- Witness for C7 on a concrete data URL and bare payload. -/
theorem extract_forwards_payload_witness :
    dataUrlPayload ("data:image/jpeg;base64".data ++ ',' :: "AAAA".data) = "AAAA".data ∧
    dataUrlPayload "AAAA".data = "AAAA".data :=
  extract_forwards_payload "data:image/jpeg;base64".data "AAAA".data
    (by decide) (by decide)

/-- C8: for every supported language the output is rendered right-to-left
iff its code is one of ur, sd, ar, ps, bal, and left-to-right otherwise. -/
theorem rtl_rendering (l : Language) (h : l ∈ SUPPORTED_LANGUAGES) :
    (outputDir l = "rtl" ↔ l.code ∈ ["ur", "sd", "ar", "ps", "bal"]) ∧
    (l.code ∉ ["ur", "sd", "ar", "ps", "bal"] → outputDir l = "ltr") := by
  fin_cases h <;> exact ⟨by decide, fun hn => by first | rfl | exact absurd (by decide) hn⟩

/-- Witness for C8: Urdu renders right-to-left. -/
theorem rtl_rendering_witness :
    ({ code := "ur", name := "Urdu", flag := "🇵🇰" } : Language) ∈ SUPPORTED_LANGUAGES ∧
    outputDir { code := "ur", name := "Urdu", flag := "🇵🇰" } = "rtl" :=
  ⟨by decide,
   (rtl_rendering { code := "ur", name := "Urdu", flag := "🇵🇰" } (by decide)).1.mpr
     (by decide)⟩

/-- C9: a confirmed `clearAll` resets input, output, history and error to
their initial empty values and nothing else; `clearHistory` empties only the
history, leaving input, output, error, tone and language untouched. -/
theorem clear_operations (s : AppState) :
    clearAll s true =
      { s with inputText := "", outputText := "", history := [], error := none } ∧
    clearHistory s = { s with history := [] } ∧
    (clearHistory s).inputText = s.inputText ∧
    (clearHistory s).outputText = s.outputText ∧
    (clearHistory s).error = s.error ∧
    (clearHistory s).selectedTone = s.selectedTone ∧
    (clearHistory s).selectedLang = s.selectedLang :=
  ⟨rfl, rfl, rfl, rfl, rfl, rfl, rfl⟩

/-- C10: on blank or whitespace-only input, `handleFixSpelling` is a
complete silent no-op — the state is returned unchanged whatever the
service outcome would have been — whereas `handleTransform` sets the
validation error. -/
theorem grammar_fix_blank_silent_noop (s : AppState) (h : jsTrim s.inputText = "") :
    (∀ svc : Except Unit (Option String), handleFixSpelling s svc = s) ∧
    (∀ (svc : Except Unit (Option String)) (now : Nat),
      handleTransform s svc now =
        { s with error := some "Please enter some text first." }) := by
  constructor
  · intro svc
    unfold handleFixSpelling
    rw [if_pos h]
  · intro svc now
    unfold handleTransform
    rw [if_pos h]

/-- Witness for C10 at whitespace-only input. -/
theorem grammar_fix_blank_silent_noop_witness :
    jsTrim (AppState.inputText { initState with inputText := "   " }) = "" ∧
    handleFixSpelling { initState with inputText := "   " } (Except.error ()) =
      { initState with inputText := "   " } :=
  ⟨by decide,
   (grammar_fix_blank_silent_noop { initState with inputText := "   " }
      (by decide)).1 (Except.error ())⟩

end Ablisense
